import Mathlib

/-!
Shallow embedding of src/elastic_snapshot.py.

External libraries (PyYAML, requests, jinja2, json, os.environ, the file
system) are modelled as oracle functions collected in a `World`; Python
exceptions are modelled by the `Exc` structure carrying a class kind and a
message; catching an exception class is modelled by testing the kind.
Every embedded function is named after the Python function it translates.
-/

set_option autoImplicit false
set_option maxHeartbeats 1000000

namespace ElasticSnapshot

/-- Kinds of Python exception classes that occur in the program. -/
inductive ExcKind where
  | fileNotFoundError
  | jsonDecodeError
  | yamlError
  | yamlLoadWarning
  | requestException
  | keyError
  | typeError
  | templateError
  | ioError
  | valueError
  | systemExit
  | otherError
deriving DecidableEq

/-- A raised Python exception: its class kind and its message. -/
structure Exc where
  kind : ExcKind
  msg : String
deriving DecidableEq

/-- The Python class name of an exception kind, as used when logging. -/
def className : ExcKind → String
  | .fileNotFoundError => "FileNotFoundError"
  | .jsonDecodeError => "JSONDecodeError"
  | .yamlError => "YAMLError"
  | .yamlLoadWarning => "YAMLLoadWarning"
  | .requestException => "RequestException"
  | .keyError => "KeyError"
  | .typeError => "TypeError"
  | .templateError => "TemplateError"
  | .ioError => "IOError"
  | .valueError => "ValueError"
  | .systemExit => "SystemExit"
  | .otherError => "Exception"

/-- Embeds `substitute_placeholder` (lines 17 to 26): renders the
`EXCEPTION_MSG` template "$className: $message". -/
def substitute_placeholder (e : Exc) : String :=
  className e.kind ++ ": " ++ e.msg

mutual
/-- A Python value as produced by yaml or json loading: None, strings,
numbers, booleans, and dictionaries (insertion ordered). -/
inductive Yaml where
  | null : Yaml
  | str : String → Yaml
  | num : Nat → Yaml
  | bool : Bool → Yaml
  | map : YEntries → Yaml
/-- The entries of a Python dictionary, in insertion order. -/
inductive YEntries where
  | nil : YEntries
  | cons : String → Yaml → YEntries → YEntries
end

/-- Lookup of a key in a dictionary. -/
def YEntries.lookup : YEntries → String → Option Yaml
  | .nil, _ => none
  | .cons k v rest, key => if k = key then some v else rest.lookup key

/-- Python dictionary item assignment: replaces the value in place when the
key exists, appends the pair otherwise. -/
def YEntries.set : YEntries → String → Yaml → YEntries
  | .nil, key, v => .cons key v .nil
  | .cons k w rest, key, v =>
      if k = key then .cons k v rest else .cons k w (rest.set key v)

deriving instance DecidableEq for Yaml

/-- Python `x is None`. -/
def Yaml.isNull : Yaml → Bool
  | .null => true
  | _ => false

/-- Python subscription `x[key]`: KeyError on a dictionary missing the key,
TypeError when the value is not subscriptable (in particular None). -/
def Yaml.getItem : Yaml → String → Except Exc Yaml
  | .map es, key =>
      match es.lookup key with
      | some v => .ok v
      | none => .error ⟨.keyError, key⟩
  | .null, _ => .error ⟨.typeError, "NoneType is not subscriptable"⟩
  | _, _ => .error ⟨.typeError, "value is not subscriptable"⟩

/-- Python subscript assignment `x[key] = v`: TypeError when `x` is not a
dictionary. -/
def Yaml.setItem : Yaml → String → Yaml → Except Exc Yaml
  | .map es, key, v => .ok (.map (es.set key v))
  | .null, _, _ => .error ⟨.typeError, "NoneType does not support item assignment"⟩
  | _, _, _ => .error ⟨.typeError, "value does not support item assignment"⟩

mutual
/-- Python `repr` of a value, as `print` shows dictionaries. -/
def pyRepr : Yaml → String
  | .null => "None"
  | .str s => "\x27" ++ s ++ "\x27"
  | .num n => toString n
  | .bool b => if b then "True" else "False"
  | .map es => "\x7b" ++ pyReprEntries es ++ "\x7d"
/-- Python `repr` of the entries of a dictionary. -/
def pyReprEntries : YEntries → String
  | .nil => ""
  | .cons k v .nil => "\x27" ++ k ++ "\x27: " ++ pyRepr v
  | .cons k v rest => "\x27" ++ k ++ "\x27: " ++ pyRepr v ++ ", " ++ pyReprEntries rest
end

/-- Python `str` of a value, as `print` shows it: strings print raw,
everything else prints as its repr. -/
def pyStr : Yaml → String
  | .str s => s
  | y => pyRepr y

/-- An HTTP response from the requests library: status code and raw body. -/
structure HttpResp where
  status : Nat
  content : String
deriving DecidableEq

/-- The requests `Response.ok` property: status code below 400. -/
def HttpResp.isOk (r : HttpResp) : Bool := r.status < 400

/-- A network call issued through the requests library. -/
inductive NetCall where
  | getC : String → NetCall
  | putC : String → NetCall
  | postC : String → NetCall
deriving DecidableEq

/-- The file system: an association of paths to textual contents. -/
structure FS where
  entries : List (String × String)
deriving DecidableEq

/-- Lookup in an association list of strings. -/
def lookupAssoc : List (String × String) → String → Option String
  | [], _ => none
  | (k, v) :: rest, key => if k = key then some v else lookupAssoc rest key

/-- Insert-or-replace in an association list, keeping the position of an
existing key. -/
def setAssoc : List (String × String) → String → String → List (String × String)
  | [], key, v => [(key, v)]
  | (k, w) :: rest, key, v =>
      if k = key then (key, v) :: rest else (k, w) :: setAssoc rest key v

/-- Writing a file: `open(path, "w+")` followed by a write creates the file
or truncates and replaces its content. -/
def FS.write (fs : FS) (p c : String) : FS := ⟨setAssoc fs.entries p c⟩

/-- Embeds `os.path.isfile`. -/
def FS.isfile (fs : FS) (p : String) : Bool := (lookupAssoc fs.entries p).isSome

/-- The ambient world: environment variables, the clock, and the outcomes
of the external libraries (yaml loading, json parsing, jinja template
lookup and rendering, and the HTTP verbs of the requests library). -/
structure World where
  env : List (String × String)
  today : String
  yamlLoad : String → Except Exc Yaml
  jsonLoads : String → Except Exc Yaml
  getTemplate : String → Except Exc Unit
  renderT : String → Yaml → Except Exc String
  getResp : String → Except Exc HttpResp
  putResp : String → Yaml → Except Exc HttpResp
  postResp : String → Except Exc HttpResp

/-- Python `environ[key]`: KeyError when the variable is absent. -/
def environGet (env : List (String × String)) (key : String) : Except Exc String :=
  match lookupAssoc env key with
  | some v => .ok v
  | none => .error ⟨.keyError, key⟩

/-- Embeds `repository_create` (lines 29 to 36). -/
def repository_create (repository : String) : String :=
  "/_snapshot/" ++ repository

/-- Embeds `snapshot_verify` (lines 39 to 46). -/
def snapshot_verify (repository : String) : String :=
  "/_snapshot/" ++ repository ++ "/_verify?pretty"

/-- Embeds `snapshot_create` (lines 49 to 57). -/
def snapshot_create (repository snapshot : String) : String :=
  "/_snapshot/" ++ repository ++ "/" ++ snapshot ++ "?pretty"

/-- Models `open(location)` followed by `yaml.load(..., SafeLoader)`: raises
FileNotFoundError when the path names no file, otherwise the yaml
library parses the content. -/
def openAndLoad (w : World) (fs : FS) (location : String) : Except Exc Yaml :=
  match lookupAssoc fs.entries location with
  | none => .error ⟨.fileNotFoundError, location⟩
  | some content => w.yamlLoad content

/-- Embeds `read_configuration` (lines 60 to 74): catches
FileNotFoundError and YAMLLoadWarning, logging and returning None; every
other exception propagates.  Returns the value paired with the printed
lines. -/
def read_configuration (w : World) (fs : FS) (location : String) :
    Except Exc Yaml × List String :=
  match openAndLoad w fs location with
  | .ok y => (.ok y, [])
  | .error e =>
      if e.kind = .fileNotFoundError then (.ok .null, [substitute_placeholder e])
      else if e.kind = .yamlLoadWarning then (.ok .null, [substitute_placeholder e])
      else (.error e, [])

/-- Embeds `check_if_reachable` (lines 113 to 119): returns
`get(es_url).ok`; the function catches nothing, so a raising GET
propagates. -/
def check_if_reachable (w : World) (es_url : String) : Except Exc Bool :=
  match w.getResp es_url with
  | .ok r => .ok r.isOk
  | .error e => .error e

/-- The except clauses of `configure_repository` (lines 138 to 146):
FileNotFoundError gives 404, JSONDecodeError gives 406, any other
`Exception` gives 404; SystemExit is not an `Exception` and propagates. -/
def configureExcHandler (e : Exc) : Except Exc Nat × List String :=
  if e.kind = .fileNotFoundError then (.ok 404, [substitute_placeholder e])
  else if e.kind = .jsonDecodeError then (.ok 406, [substitute_placeholder e])
  else if e.kind = .systemExit then (.error e, [])
  else (.ok 404, [substitute_placeholder e])

/-- Embeds `configure_repository` (lines 122 to 148).  The payload file is
parsed by `load(payload, Loader=SafeLoader)`, i.e. by the yaml library.
Returns the status, the printed lines, and the network calls issued. -/
def configure_repository (w : World) (fs : FS)
    (payload_location es_url repository_name : String) :
    Except Exc Nat × List String × List NetCall :=
  match check_if_reachable w es_url with
  | .error e => (.error e, [], [.getC es_url])
  | .ok reachable =>
      if reachable && fs.isfile payload_location then
        let uri := repository_create repository_name
        match lookupAssoc fs.entries payload_location with
        | none =>
            let (res, out) := configureExcHandler ⟨.fileNotFoundError, payload_location⟩
            (res, out, [.getC es_url])
        | some content =>
            match w.yamlLoad content with
            | .error e =>
                let (res, out) := configureExcHandler e
                (res, out, [.getC es_url])
            | .ok json_payload =>
                match w.putResp (es_url ++ uri) json_payload with
                | .ok resp =>
                    (.ok resp.status, [], [.getC es_url, .putC (es_url ++ uri)])
                | .error e =>
                    let (res, out) := configureExcHandler e
                    (res, out, [.getC es_url, .putC (es_url ++ uri)])
      else (.ok 404, [], [.getC es_url])

/-- The except clauses shared by `verify_bucket_configuration` (lines 163
to 168) and `create_snapshot` (lines 191 to 196): RequestException and
JSONDecodeError are logged and give None; anything else propagates. -/
def responseExcHandler (e : Exc) : Except Exc Yaml × List String :=
  if e.kind = .requestException then (.ok .null, [substitute_placeholder e])
  else if e.kind = .jsonDecodeError then (.ok .null, [substitute_placeholder e])
  else (.error e, [])

/-- Embeds `verify_bucket_configuration` (lines 151 to 168).  When the
cluster is not reachable the function falls through and implicitly
returns None. -/
def verify_bucket_configuration (w : World) (es_url repository : String) :
    Except Exc Yaml × List String × List NetCall :=
  match check_if_reachable w es_url with
  | .error e => (.error e, [], [.getC es_url])
  | .ok true =>
      let uri := snapshot_verify repository
      match w.postResp (es_url ++ uri) with
      | .error e =>
          let (res, out) := responseExcHandler e
          (res, out, [.getC es_url, .postC (es_url ++ uri)])
      | .ok resp =>
          match w.jsonLoads resp.content with
          | .error e =>
              let (res, out) := responseExcHandler e
              (res, out, [.getC es_url, .postC (es_url ++ uri)])
          | .ok response => (.ok response, [], [.getC es_url, .postC (es_url ++ uri)])
  | .ok false => (.ok .null, [], [.getC es_url])

/-- Embeds `create_snapshot` (lines 171 to 196).  The payload file is
parsed by the yaml library; a yaml parse error matches neither except
clause and propagates.  When a precondition fails the function implicitly
returns None. -/
def create_snapshot (w : World) (fs : FS)
    (es_url repository snapshot payload_location : String) :
    Except Exc Yaml × List String × List NetCall :=
  match check_if_reachable w es_url with
  | .error e => (.error e, [], [.getC es_url])
  | .ok reachable =>
      if reachable && fs.isfile payload_location then
        let uri := snapshot_create repository snapshot
        match lookupAssoc fs.entries payload_location with
        | none =>
            let (res, out) := responseExcHandler ⟨.fileNotFoundError, payload_location⟩
            (res, out, [.getC es_url])
        | some content =>
            match w.yamlLoad content with
            | .error e =>
                let (res, out) := responseExcHandler e
                (res, out, [.getC es_url])
            | .ok json_payload =>
                match w.putResp (es_url ++ uri) json_payload with
                | .error e =>
                    let (res, out) := responseExcHandler e
                    (res, out, [.getC es_url, .putC (es_url ++ uri)])
                | .ok resp =>
                    match w.jsonLoads resp.content with
                    | .error e =>
                        let (res, out) := responseExcHandler e
                        (res, out, [.getC es_url, .putC (es_url ++ uri)])
                    | .ok response =>
                        (.ok response, [], [.getC es_url, .putC (es_url ++ uri)])
      else (.ok .null, [], [.getC es_url])

/-- The exception kinds caught by `generate_payload` (lines 102 to 110):
IOError (whose subclasses include FileNotFoundError), TemplateError, and
ValueError (whose subclasses include JSONDecodeError). -/
def generateCaught (k : ExcKind) : Bool :=
  k = .ioError || k = .fileNotFoundError || k = .templateError ||
  k = .valueError || k = .jsonDecodeError

/-- Embeds `generate_payload` (lines 77 to 110): looks the template up,
creates or truncates the output file, prints the metadata, renders, and
writes; caught errors are logged and give None.  Returns the byte count
(None on failure), the resulting file system, and the printed lines. -/
def generate_payload (w : World) (fs : FS)
    (template_location : String) (metadata : Yaml) (outfile : String) :
    Except Exc (Option Nat) × FS × List String :=
  if metadata.isNull then (.ok none, fs, ["metadata is empty."])
  else
    match w.getTemplate template_location with
    | .error e =>
        if generateCaught e.kind then (.ok none, fs, [substitute_placeholder e])
        else (.error e, fs, [])
    | .ok _ =>
        let fs1 := fs.write outfile ""
        match w.renderT template_location metadata with
        | .error e =>
            if generateCaught e.kind then
              (.ok none, fs1, [pyStr metadata, substitute_placeholder e])
            else (.error e, fs1, [pyStr metadata])
        | .ok content =>
            (.ok (some content.length), fs1.write outfile content, [pyStr metadata])

/-- Embeds `fill_template` (lines 198 to 207): with absent metadata it
prints and calls `exit(1)` (SystemExit); otherwise it renders and only
warns when nothing was written. -/
def fill_template (w : World) (fs : FS)
    (template : String) (metadata : Yaml) (outfile : String) :
    Except Exc Unit × FS × List String :=
  if metadata.isNull then
    (.error ⟨.systemExit, "1"⟩, fs, ["meta data didn\x27t load; please check yamls"])
  else
    let (written, fs1, out) := generate_payload w fs template metadata outfile
    match written with
    | .error e => (.error e, fs1, out)
    | .ok wn =>
        if wn = some 0 || wn = none then
          (.ok (), fs1, out ++ ["please check the metadata, it is must be none."])
        else (.ok (), fs1, out)

/-- One nested Python assignment `meta[k1][k2][k3] = v` as in lines 219
and 220: look up the two levels, assign in the inner dictionary, and
write the mutation back up. -/
def setPath2 (meta : Yaml) (k1 k2 k3 : String) (v : Yaml) : Except Exc Yaml := do
  let c ← meta.getItem k1
  let b ← c.getItem k2
  let b2 ← b.setItem k3 v
  let c2 ← c.setItem k2 b2
  meta.setItem k1 c2

/-- One nested Python assignment `meta[k1][k2][k3][k4] = v` as in line
221. -/
def setPath3 (meta : Yaml) (k1 k2 k3 k4 : String) (v : Yaml) : Except Exc Yaml := do
  let c ← meta.getItem k1
  let b ← c.getItem k2
  let s ← b.getItem k3
  let s2 ← s.setItem k4 v
  let b2 ← b.setItem k3 s2
  let c2 ← c.setItem k2 b2
  meta.setItem k1 c2

/-- Embeds lines 219 to 221 of `entrypoint`: the credential injection.
Each line evaluates its right-hand side (the environment lookup) before
the target subscription chain, as Python does. -/
def credentialInject (env : List (String × String)) (meta : Yaml)
    (snapshot_name : String) : Except Exc Yaml := do
  let ak ← environGet env "AWS_ACCESS_KEY_ID"
  let m1 ← setPath2 meta "config" "bucket" "access_key" (.str ak)
  let sk ← environGet env "AWS_SECRET_ACCESS_KEY"
  let m2 ← setPath2 m1 "config" "bucket" "access_secret" (.str sk)
  setPath3 m2 "config" "bucket" "snapshot" "name" (.str snapshot_name)

/-- Embeds lines 214 and 215 of `entrypoint`: the url and repository
extraction, each subscripting `meta_values["config"]` afresh. -/
def extractUrlRepo (meta : Yaml) : Except Exc (Yaml × Yaml) := do
  let c1 ← meta.getItem "config"
  let u ← c1.getItem "url"
  let c2 ← meta.getItem "config"
  let r ← c2.getItem "repository"
  pure (u, r)

deriving instance DecidableEq for Except

/-- The observable outcome of a run of `entrypoint`: the result (an
uncaught exception ends the process with exit status 1; `.ok` means exit
status 0), the final file system, the lines printed to standard output in
order, and the network calls issued in order. -/
structure RunOut where
  result : Except Exc Unit
  fs : FS
  prints : List String
  calls : List NetCall
deriving DecidableEq

/-- Embeds `entrypoint` (lines 210 to 236): load the configuration,
extract url and repository, compute the snapshot name and print it,
inject the credentials, print the url, render both templates, then run
and print the three HTTP stages. -/
def entrypoint (w : World) (fs0 : FS)
    (bucket_template snapshot_template metadata : String) : RunOut :=
  let (metaRes, pr0) := read_configuration w fs0 metadata
  match metaRes with
  | .error e => ⟨.error e, fs0, pr0, []⟩
  | .ok meta_values =>
    let bucket_payload := "configuration/bucket.json"
    let snapshot_payload := "configuration/snapshot.json"
    match extractUrlRepo meta_values with
    | .error e => ⟨.error e, fs0, pr0, []⟩
    | .ok (es_urlY, repositoryY) =>
      let snapshot_name := "snapshot-" ++ w.today
      let pr1 := pr0 ++ [snapshot_name]
      match credentialInject w.env meta_values snapshot_name with
      | .error e => ⟨.error e, fs0, pr1, []⟩
      | .ok meta2 =>
        let pr2 := pr1 ++ [pyStr es_urlY]
        let (r1, fs1, o1) := fill_template w fs0 bucket_template meta2 bucket_payload
        match r1 with
        | .error e => ⟨.error e, fs1, pr2 ++ o1, []⟩
        | .ok _ =>
          let (r2, fs2, o2) := fill_template w fs1 snapshot_template meta2 snapshot_payload
          match r2 with
          | .error e => ⟨.error e, fs2, pr2 ++ o1 ++ o2, []⟩
          | .ok _ =>
            let pr3 := pr2 ++ o1 ++ o2
            match es_urlY, repositoryY with
            | .str es_url, .str repository =>
              let (s1, p1, c1) := configure_repository w fs2 bucket_payload es_url repository
              match s1 with
              | .error e => ⟨.error e, fs2, pr3 ++ p1, c1⟩
              | .ok status =>
                let pr4 := pr3 ++ p1 ++ [toString status]
                let (s2, p2, c2) := verify_bucket_configuration w es_url repository
                match s2 with
                | .error e => ⟨.error e, fs2, pr4 ++ p2, c1 ++ c2⟩
                | .ok vresp =>
                  let pr5 := pr4 ++ p2 ++ [pyStr vresp]
                  let (s3, p3, c3) :=
                    create_snapshot w fs2 es_url repository snapshot_name snapshot_payload
                  match s3 with
                  | .error e => ⟨.error e, fs2, pr5 ++ p3, c1 ++ c2 ++ c3⟩
                  | .ok cresp =>
                    ⟨.ok (), fs2, pr5 ++ p3 ++ [pyStr cresp], c1 ++ c2 ++ c3⟩
            | _, _ =>
              ⟨.error ⟨.typeError, "url or repository is not a string"⟩, fs2, pr3, []⟩

/-! ## The normal form of the injected configuration -/

/-- The mapping `config.bucket.snapshot` after the injection: `name` set to the
snapshot name. -/
def injectedSnap (s : YEntries) (nm : String) : YEntries :=
  s.set "name" (.str nm)

/-- The mapping `config.bucket` after the injection: the two credentials added and the
snapshot mapping updated. -/
def injectedBucket (b s : YEntries) (ak sk nm : String) : YEntries :=
  ((b.set "access_key" (.str ak)).set "access_secret" (.str sk)).set
    "snapshot" (.map (injectedSnap s nm))

/-- The mapping `config` after the injection. -/
def injectedConfig (c b s : YEntries) (ak sk nm : String) : YEntries :=
  c.set "bucket" (.map (injectedBucket b s ak sk nm))

/-- The whole configuration mapping after the injection. -/
def injectedEntries (m c b s : YEntries) (ak sk nm : String) : YEntries :=
  m.set "config" (.map (injectedConfig c b s ak sk nm))

/-! ## Concrete worlds used to evaluate the model on closed inputs -/

/-- A world whose cluster URL is unroutable: every GET raises a
ConnectionError (a RequestException). -/
def unroutableWorld : World where
  env := [("AWS_ACCESS_KEY_ID", "AK"), ("AWS_SECRET_ACCESS_KEY", "SK")]
  today := "2026-10-12"
  yamlLoad := fun _ => .ok .null
  jsonLoads := fun _ => .ok .null
  getTemplate := fun _ => .ok ()
  renderT := fun _ _ => .ok "x"
  getResp := fun _ => .error ⟨.requestException, "connection refused"⟩
  putResp := fun _ _ => .ok ⟨200, ""⟩
  postResp := fun _ => .ok ⟨200, ""⟩

/-- The configuration mapping of the end-to-end scenario of the spec:
url, repository, and a bucket with an empty snapshot mapping. -/
def scenarioMeta : YEntries :=
  .cons "config" (.map (.cons "url" (.str "http://localhost:9200")
    (.cons "repository" (.str "backups")
    (.cons "bucket" (.map (.cons "snapshot" (.map .nil) .nil)) .nil)))) .nil

/-- The file system of the end-to-end scenario: just the metadata file. -/
def scenarioFS : FS := ⟨[("meta.yaml", "METAYAML")]⟩

/-- The world of the end-to-end scenario: configuration loads to
`scenarioMeta`, both templates render, the cluster answers every GET with
200, the repository PUT with 404, the verify POST with a compensates
response, and the snapshot PUT with an accepted response. -/
def scenarioWorld : World where
  env := [("AWS_ACCESS_KEY_ID", "AK"), ("AWS_SECRET_ACCESS_KEY", "SK")]
  today := "2026-10-12"
  yamlLoad := fun s => if s = "METAYAML" then .ok (.map scenarioMeta) else .ok (.map .nil)
  jsonLoads := fun s =>
    if s = "VERIFYBODY" then .ok (.map (.cons "compensates" (.bool false) .nil))
    else .ok (.map (.cons "accepted" (.bool true) .nil))
  getTemplate := fun _ => .ok ()
  renderT := fun t _ =>
    if t = "configuration/elastic_bucket.j2" then .ok "BUCKETJSON" else .ok "SNAPJSON"
  getResp := fun _ => .ok ⟨200, ""⟩
  putResp := fun url _ =>
    if url = "http://localhost:9200/_snapshot/backups" then .ok ⟨404, ""⟩
    else .ok ⟨200, "SNAPBODY"⟩
  postResp := fun _ => .ok ⟨200, "VERIFYBODY"⟩

/-- A second world for the same calendar date: same clock, different
cluster behaviour. -/
def altWorld : World :=
  { scenarioWorld with
      getResp := fun _ => .ok ⟨503, ""⟩
      putResp := fun _ _ => .ok ⟨200, ""⟩ }

/-- A reachable world whose payload file holds invalid JSON (also invalid
YAML), on which the yaml loader raises a scanner error. -/
def badPayloadWorld : World where
  env := [("AWS_ACCESS_KEY_ID", "AK"), ("AWS_SECRET_ACCESS_KEY", "SK")]
  today := "2026-10-12"
  yamlLoad := fun _ => .error ⟨.yamlError, "while scanning, found unexpected end of stream"⟩
  jsonLoads := fun _ => .ok .null
  getTemplate := fun _ => .ok ()
  renderT := fun _ _ => .ok "x"
  getResp := fun _ => .ok ⟨200, ""⟩
  putResp := fun _ _ => .ok ⟨200, ""⟩
  postResp := fun _ => .ok ⟨200, ""⟩

/-- A file system holding one payload file with truncated JSON content. -/
def badPayloadFS : FS := ⟨[("configuration/bucket.json", "\x7b\"a\": 1")]⟩

/-- Sample entries for the credential-injection witnesses. -/
def sampleSnap : YEntries := .cons "schedule" (.str "daily") .nil

/-- Sample bucket entries: a region and the snapshot mapping. -/
def sampleBucket : YEntries :=
  .cons "region" (.str "eu-west-1") (.cons "snapshot" (.map sampleSnap) .nil)

/-- Sample config entries: url, repository, bucket. -/
def sampleConfig : YEntries :=
  .cons "url" (.str "http://localhost:9200")
    (.cons "repository" (.str "backups")
    (.cons "bucket" (.map sampleBucket) .nil))

/-- Sample top-level configuration entries. -/
def sampleMeta : YEntries := .cons "config" (.map sampleConfig) .nil

/-- A sample environment holding both required variables. -/
def sampleEnv : List (String × String) :=
  [("AWS_ACCESS_KEY_ID", "AKIA"), ("AWS_SECRET_ACCESS_KEY", "SECRET")]

/-! ## Lemmas about the dictionary and file-system operations -/

/-- Looking a key up after a set: the set key answers the new value, every
other key is unchanged. -/
theorem YEntries.lookup_set : ∀ (es : YEntries) (key : String) (v : Yaml) (k2 : String),
    (es.set key v).lookup k2 = if key = k2 then some v else es.lookup k2
  | .nil, key, v, k2 => by simp [YEntries.set, YEntries.lookup]
  | .cons k w rest, key, v, k2 => by
      by_cases hk : k = key
      · subst hk
        simp only [YEntries.set, if_pos rfl, YEntries.lookup]
        by_cases h2 : k = k2 <;> simp [h2]
      · simp only [YEntries.set, if_neg hk, YEntries.lookup,
          YEntries.lookup_set rest key v k2]
        by_cases h2 : k = k2
        · subst h2
          have hne : ¬ key = k := fun h => hk h.symm
          simp [hne]
        · simp [h2]

/-- Setting the same key twice keeps only the second value. -/
theorem YEntries.set_set : ∀ (es : YEntries) (key : String) (v v2 : Yaml),
    (es.set key v).set key v2 = es.set key v2
  | .nil, key, v, v2 => by simp [YEntries.set]
  | .cons k w rest, key, v, v2 => by
      by_cases hk : k = key
      · subst hk; simp [YEntries.set]
      · simp [YEntries.set, hk, YEntries.set_set rest key v v2]

/-- The file-system analogue of `YEntries.lookup_set`. -/
theorem lookupAssoc_setAssoc (l : List (String × String)) (key v k2 : String) :
    lookupAssoc (setAssoc l key v) k2 = if key = k2 then some v else lookupAssoc l k2 := by
  induction l with
  | nil => simp [setAssoc, lookupAssoc]
  | cons p rest ih =>
      obtain ⟨k, w⟩ := p
      by_cases hk : k = key
      · subst hk
        simp only [setAssoc, if_pos rfl, lookupAssoc]
        by_cases h2 : k = k2 <;> simp [h2]
      · simp only [setAssoc, if_neg hk, lookupAssoc, ih]
        by_cases h2 : k = k2
        · subst h2
          have hne : ¬ key = k := fun h => hk h.symm
          simp [hne]
        · simp [h2]

/-- Evaluation of the credential injection on a well-shaped configuration:
both environment variables present, `config`, `config.bucket` and
`config.bucket.snapshot` present as mappings. -/
theorem credentialInject_eq (env : List (String × String)) (m c b s : YEntries)
    (ak sk nm : String)
    (hak : lookupAssoc env "AWS_ACCESS_KEY_ID" = some ak)
    (hsk : lookupAssoc env "AWS_SECRET_ACCESS_KEY" = some sk)
    (hc : m.lookup "config" = some (.map c))
    (hb : c.lookup "bucket" = some (.map b))
    (hs : b.lookup "snapshot" = some (.map s)) :
    credentialInject env (.map m) nm = .ok (.map (injectedEntries m c b s ak sk nm)) := by
  simp [credentialInject, environGet, hak, hsk, setPath2, setPath3,
    Yaml.getItem, Yaml.setItem, hc, hb, hs, YEntries.lookup_set, YEntries.set_set,
    injectedEntries, injectedConfig, injectedBucket, injectedSnap,
    bind, Except.bind]

/-! ## Claim C3: the reachability check -/

/-- Claim C3 counterexample: for an unroutable URL the GET raises a
RequestException and `check_if_reachable` propagates it; it does not
return false. -/
theorem check_if_reachable_unroutable_raises :
    check_if_reachable unroutableWorld "http://10.255.255.1:9200"
        = .error ⟨.requestException, "connection refused"⟩ ∧
    check_if_reachable unroutableWorld "http://10.255.255.1:9200" ≠ .ok false := by
  exact ⟨rfl, by decide⟩

/-- Claim C3 (amended): when the GET completes, `check_if_reachable`
returns true exactly when the status is in the success range (below 400);
when the GET raises, the exception propagates instead of a false return. -/
theorem check_if_reachable_spec (w : World) (es_url : String) :
    (∀ r : HttpResp, w.getResp es_url = .ok r →
        (check_if_reachable w es_url = .ok true ↔ r.status < 400)) ∧
    (∀ e : Exc, w.getResp es_url = .error e →
        check_if_reachable w es_url = .error e) := by
  constructor
  · intro r h
    simp [check_if_reachable, h, HttpResp.isOk]
  · intro e h
    simp [check_if_reachable, h]

/-- Witness for the amended claim C3 at a concrete success response. -/
theorem check_if_reachable_spec_witness :
    scenarioWorld.getResp "http://localhost:9200" = .ok ⟨200, ""⟩ ∧
    (check_if_reachable scenarioWorld "http://localhost:9200" = .ok true ↔ (200 : Nat) < 400) :=
  ⟨rfl, (check_if_reachable_spec scenarioWorld "http://localhost:9200").1 ⟨200, ""⟩ rfl⟩

/-! ## Claim C2: missing payload file in the Repository Configurator -/

/-- Claim C2 counterexample: with an unroutable cluster and a payload path
naming no file, `configure_repository` does not return 404: the
ConnectionError of the reachability GET propagates. -/
theorem configure_repository_unroutable_propagates :
    (configure_repository unroutableWorld ⟨[]⟩ "configuration/bucket.json"
        "http://10.255.255.1:9200" "backups").1
      = .error ⟨.requestException, "connection refused"⟩ ∧
    (configure_repository unroutableWorld ⟨[]⟩ "configuration/bucket.json"
        "http://10.255.255.1:9200" "backups").1 ≠ .ok 404 := by
  exact ⟨rfl, by decide⟩

/-- Claim C2 (amended): when the reachability GET completes (whatever its
status), a payload path naming no file makes `configure_repository` return
404 and issue no network call beyond the reachability GET. -/
theorem configure_repository_missing_payload_404 (w : World) (fs : FS)
    (payload_location es_url repository_name : String) (r : HttpResp)
    (hget : w.getResp es_url = .ok r)
    (hfile : lookupAssoc fs.entries payload_location = none) :
    configure_repository w fs payload_location es_url repository_name
      = (.ok 404, [], [.getC es_url]) := by
  simp [configure_repository, check_if_reachable, hget, FS.isfile, hfile]

/-- Witness for the amended claim C2: reachable cluster, empty file
system. -/
theorem configure_repository_missing_payload_404_witness :
    scenarioWorld.getResp "http://localhost:9200" = .ok ⟨200, ""⟩ ∧
    lookupAssoc (FS.entries ⟨[]⟩) "configuration/bucket.json" = none ∧
    configure_repository scenarioWorld ⟨[]⟩ "configuration/bucket.json"
        "http://localhost:9200" "backups"
      = (.ok 404, [], [.getC "http://localhost:9200"]) :=
  ⟨rfl, rfl,
    configure_repository_missing_payload_404 scenarioWorld ⟨[]⟩
      "configuration/bucket.json" "http://localhost:9200" "backups" ⟨200, ""⟩ rfl rfl⟩

/-! ## Claim C1: invalid JSON payload in the Repository Configurator -/

/-- Claim C1, evaluated on the code: the payload file is parsed by
`load(payload, Loader=SafeLoader)` from the yaml library, whose failures
are YAMLError subclasses and never json.JSONDecodeError; such a failure is
caught by the broad except clause and yields 404, so the 406 branch is
unreachable and an invalid-JSON payload that is also invalid YAML yields
404, not 406. -/
theorem configure_repository_invalid_json_gives_404 (w : World) (fs : FS)
    (payload_location es_url repository_name content msg : String) (r : HttpResp)
    (hget : w.getResp es_url = .ok r) (hok : r.isOk = true)
    (hfile : lookupAssoc fs.entries payload_location = some content)
    (hyaml : w.yamlLoad content = .error ⟨.yamlError, msg⟩) :
    (configure_repository w fs payload_location es_url repository_name).1
        = .ok 404 ∧ (404 : Nat) ≠ 406 := by
  refine ⟨?_, by decide⟩
  simp [configure_repository, check_if_reachable, hget, hok, FS.isfile, hfile,
    hyaml, configureExcHandler]

/-- Witness for claim C1 at the concrete failing input: a reachable
cluster and a payload file holding truncated JSON. -/
theorem configure_repository_invalid_json_gives_404_witness :
    badPayloadWorld.getResp "http://localhost:9200" = .ok ⟨200, ""⟩ ∧
    HttpResp.isOk ⟨200, ""⟩ = true ∧
    lookupAssoc badPayloadFS.entries "configuration/bucket.json" = some "\x7b\"a\": 1" ∧
    badPayloadWorld.yamlLoad "\x7b\"a\": 1"
      = .error ⟨.yamlError, "while scanning, found unexpected end of stream"⟩ ∧
    ((configure_repository badPayloadWorld badPayloadFS "configuration/bucket.json"
        "http://localhost:9200" "backups").1 = .ok 404 ∧ (404 : Nat) ≠ 406) :=
  ⟨rfl, rfl, rfl, rfl,
    configure_repository_invalid_json_gives_404 badPayloadWorld badPayloadFS
      "configuration/bucket.json" "http://localhost:9200" "backups"
      "\x7b\"a\": 1" "while scanning, found unexpected end of stream" ⟨200, ""⟩ rfl rfl rfl rfl⟩

/-! ## Claim C6: the Config Loader error policy -/

/-- Claim C6: for a path naming no file, `read_configuration` returns an
absent result without raising and logs "FileNotFoundError: " followed by
the message; the same policy applies to a YAMLLoadWarning; any other load
error propagates uncaught. -/
theorem read_configuration_error_policy (w : World) (fs : FS) (location : String) :
    (lookupAssoc fs.entries location = none →
      read_configuration w fs location
        = (.ok .null, ["FileNotFoundError: " ++ location])) ∧
    (∀ content e, lookupAssoc fs.entries location = some content →
      w.yamlLoad content = .error e → e.kind = .yamlLoadWarning →
      read_configuration w fs location = (.ok .null, [substitute_placeholder e])) ∧
    (∀ content e, lookupAssoc fs.entries location = some content →
      w.yamlLoad content = .error e → e.kind ≠ .fileNotFoundError →
      e.kind ≠ .yamlLoadWarning →
      read_configuration w fs location = (.error e, [])) := by
  refine ⟨?_, ?_, ?_⟩
  · intro hmiss
    simp [read_configuration, openAndLoad, hmiss, substitute_placeholder, className]
  · intro content e hfile hload hkind
    have : e.kind ≠ .fileNotFoundError := by
      rw [hkind]; decide
    simp [read_configuration, openAndLoad, hfile, hload, hkind, this]
  · intro content e hfile hload h1 h2
    simp [read_configuration, openAndLoad, hfile, hload, h1, h2]

/-- Witness for claim C6: a missing configuration file gives an absent
configuration plus the log line; a propagating yaml error stays an
error. -/
theorem read_configuration_error_policy_witness :
    (lookupAssoc (FS.entries ⟨[]⟩) "meta.yaml" = none ∧
      read_configuration scenarioWorld ⟨[]⟩ "meta.yaml"
        = (.ok .null, ["FileNotFoundError: meta.yaml"])) ∧
    (lookupAssoc badPayloadFS.entries "configuration/bucket.json" = some "\x7b\"a\": 1" ∧
      read_configuration badPayloadWorld badPayloadFS "configuration/bucket.json"
        = (.error ⟨.yamlError, "while scanning, found unexpected end of stream"⟩, [])) :=
  ⟨⟨rfl, (read_configuration_error_policy scenarioWorld ⟨[]⟩ "meta.yaml").1 rfl⟩,
   ⟨rfl, (read_configuration_error_policy badPayloadWorld badPayloadFS
      "configuration/bucket.json").2.2 "\x7b\"a\": 1"
      ⟨.yamlError, "while scanning, found unexpected end of stream"⟩
      rfl rfl (by decide) (by decide)⟩⟩

/-! ## Claim C9: the frame of the credential injection -/

/-- Claim C9: on a well-shaped configuration the injection sets exactly
config.bucket.access_key, config.bucket.access_secret and
config.bucket.snapshot.name, and leaves every other entry at every level
(in particular config.url and config.repository) unchanged. -/
theorem credential_injector_frame (env : List (String × String)) (m c b s : YEntries)
    (ak sk nm : String)
    (hak : lookupAssoc env "AWS_ACCESS_KEY_ID" = some ak)
    (hsk : lookupAssoc env "AWS_SECRET_ACCESS_KEY" = some sk)
    (hc : m.lookup "config" = some (.map c))
    (hb : c.lookup "bucket" = some (.map b))
    (hs : b.lookup "snapshot" = some (.map s)) :
    credentialInject env (.map m) nm = .ok (.map (injectedEntries m c b s ak sk nm)) ∧
    (injectedEntries m c b s ak sk nm).lookup "config"
        = some (.map (injectedConfig c b s ak sk nm)) ∧
    (∀ k, k ≠ "config" → (injectedEntries m c b s ak sk nm).lookup k = m.lookup k) ∧
    (injectedConfig c b s ak sk nm).lookup "bucket"
        = some (.map (injectedBucket b s ak sk nm)) ∧
    (∀ k, k ≠ "bucket" → (injectedConfig c b s ak sk nm).lookup k = c.lookup k) ∧
    (injectedBucket b s ak sk nm).lookup "access_key" = some (.str ak) ∧
    (injectedBucket b s ak sk nm).lookup "access_secret" = some (.str sk) ∧
    (injectedBucket b s ak sk nm).lookup "snapshot" = some (.map (injectedSnap s nm)) ∧
    (∀ k, k ≠ "access_key" → k ≠ "access_secret" → k ≠ "snapshot" →
        (injectedBucket b s ak sk nm).lookup k = b.lookup k) ∧
    (injectedSnap s nm).lookup "name" = some (.str nm) ∧
    (∀ k, k ≠ "name" → (injectedSnap s nm).lookup k = s.lookup k) ∧
    (injectedConfig c b s ak sk nm).lookup "url" = c.lookup "url" ∧
    (injectedConfig c b s ak sk nm).lookup "repository" = c.lookup "repository" := by
  refine ⟨credentialInject_eq env m c b s ak sk nm hak hsk hc hb hs,
    ?_, ?_, ?_, ?_, ?_, ?_, ?_, ?_, ?_, ?_, ?_, ?_⟩
  · simp [injectedEntries, YEntries.lookup_set]
  · intro k hk
    simp [injectedEntries, YEntries.lookup_set, Ne.symm hk]
  · simp [injectedConfig, YEntries.lookup_set]
  · intro k hk
    simp [injectedConfig, YEntries.lookup_set, Ne.symm hk]
  · simp [injectedBucket, YEntries.lookup_set]
  · simp [injectedBucket, YEntries.lookup_set]
  · simp [injectedBucket, YEntries.lookup_set]
  · intro k h1 h2 h3
    simp [injectedBucket, YEntries.lookup_set, Ne.symm h1, Ne.symm h2, Ne.symm h3]
  · simp [injectedSnap, YEntries.lookup_set]
  · intro k hk
    simp [injectedSnap, YEntries.lookup_set, Ne.symm hk]
  · simp [injectedConfig, YEntries.lookup_set]
  · simp [injectedConfig, YEntries.lookup_set]

/-- Witness for claim C9 on a sample configuration: the injection computes
and the url entry of config is untouched. -/
theorem credential_injector_frame_witness :
    lookupAssoc sampleEnv "AWS_ACCESS_KEY_ID" = some "AKIA" ∧
    YEntries.lookup sampleMeta "config" = some (.map sampleConfig) ∧
    credentialInject sampleEnv (.map sampleMeta) "snapshot-2026-10-12"
      = .ok (.map (injectedEntries sampleMeta sampleConfig sampleBucket sampleSnap
          "AKIA" "SECRET" "snapshot-2026-10-12")) ∧
    (injectedConfig sampleConfig sampleBucket sampleSnap "AKIA" "SECRET"
        "snapshot-2026-10-12").lookup "url" = sampleConfig.lookup "url" :=
  ⟨rfl, rfl,
    (credential_injector_frame sampleEnv sampleMeta sampleConfig sampleBucket sampleSnap
      "AKIA" "SECRET" "snapshot-2026-10-12" rfl rfl rfl rfl rfl).1,
    (credential_injector_frame sampleEnv sampleMeta sampleConfig sampleBucket sampleSnap
      "AKIA" "SECRET" "snapshot-2026-10-12" rfl rfl rfl rfl rfl).2.2.2.2.2.2.2.2.2.2.2.1⟩

/-! ## Claim C10: the shape the injection requires -/

/-- Claim C10: with config, config.bucket or config.bucket.snapshot absent
the run aborts in the lines 214 to 221 block with an uncaught KeyError;
when all three exist as mappings (and the environment variables are set)
the injection step succeeds and cannot fail for configuration-shape
reasons. -/
theorem injection_requires_mappings (w : World) (fs0 : FS) (bt st mp : String) :
    (∀ m : YEntries, openAndLoad w fs0 mp = .ok (.map m) →
      m.lookup "config" = none →
      (entrypoint w fs0 bt st mp).result = .error ⟨.keyError, "config"⟩) ∧
    (∀ (m c : YEntries) (uY rY : Yaml) (ak : String),
      openAndLoad w fs0 mp = .ok (.map m) →
      m.lookup "config" = some (.map c) →
      c.lookup "url" = some uY → c.lookup "repository" = some rY →
      lookupAssoc w.env "AWS_ACCESS_KEY_ID" = some ak →
      c.lookup "bucket" = none →
      (entrypoint w fs0 bt st mp).result = .error ⟨.keyError, "bucket"⟩) ∧
    (∀ (m c b : YEntries) (uY rY : Yaml) (ak sk : String),
      openAndLoad w fs0 mp = .ok (.map m) →
      m.lookup "config" = some (.map c) →
      c.lookup "url" = some uY → c.lookup "repository" = some rY →
      lookupAssoc w.env "AWS_ACCESS_KEY_ID" = some ak →
      lookupAssoc w.env "AWS_SECRET_ACCESS_KEY" = some sk →
      c.lookup "bucket" = some (.map b) →
      b.lookup "snapshot" = none →
      (entrypoint w fs0 bt st mp).result = .error ⟨.keyError, "snapshot"⟩) ∧
    (∀ (m c b s : YEntries) (ak sk nm : String),
      lookupAssoc w.env "AWS_ACCESS_KEY_ID" = some ak →
      lookupAssoc w.env "AWS_SECRET_ACCESS_KEY" = some sk →
      m.lookup "config" = some (.map c) →
      c.lookup "bucket" = some (.map b) →
      b.lookup "snapshot" = some (.map s) →
      credentialInject w.env (.map m) nm
        = .ok (.map (injectedEntries m c b s ak sk nm))) := by
  refine ⟨?_, ?_, ?_, ?_⟩
  · intro m hload hnone
    have h1 : read_configuration w fs0 mp = (.ok (.map m), []) := by
      simp [read_configuration, hload]
    have h2 : extractUrlRepo (.map m) = .error ⟨.keyError, "config"⟩ := by
      simp [extractUrlRepo, Yaml.getItem, hnone, bind, Except.bind]
    simp [entrypoint, h1, h2]
  · intro m c uY rY ak hload hc hu hr hak hnone
    have h1 : read_configuration w fs0 mp = (.ok (.map m), []) := by
      simp [read_configuration, hload]
    have h2 : extractUrlRepo (.map m) = .ok (uY, rY) := by
      simp [extractUrlRepo, Yaml.getItem, hc, hu, hr, bind, Except.bind, pure, Except.pure]
    have h3 : credentialInject w.env (.map m) ("snapshot-" ++ w.today)
        = .error ⟨.keyError, "bucket"⟩ := by
      simp [credentialInject, setPath2, environGet, hak, Yaml.getItem, hc, hnone,
        bind, Except.bind]
    simp [entrypoint, h1, h2, h3]
  · intro m c b uY rY ak sk hload hc hu hr hak hsk hb hnone
    have h1 : read_configuration w fs0 mp = (.ok (.map m), []) := by
      simp [read_configuration, hload]
    have h2 : extractUrlRepo (.map m) = .ok (uY, rY) := by
      simp [extractUrlRepo, Yaml.getItem, hc, hu, hr, bind, Except.bind, pure, Except.pure]
    have h3 : credentialInject w.env (.map m) ("snapshot-" ++ w.today)
        = .error ⟨.keyError, "snapshot"⟩ := by
      simp [credentialInject, setPath2, setPath3, environGet, hak, hsk,
        Yaml.getItem, Yaml.setItem, hc, hb, hnone, YEntries.lookup_set,
        YEntries.set_set, bind, Except.bind]
    simp [entrypoint, h1, h2, h3]
  · intro m c b s ak sk nm hak hsk hc hb hs
    exact credentialInject_eq w.env m c b s ak sk nm hak hsk hc hb hs

/-- Witness for claim C10: a loaded configuration holding no `config` key
makes the run abort with a KeyError. -/
theorem injection_requires_mappings_witness :
    openAndLoad scenarioWorld ⟨[("meta.yaml", "OTHER")]⟩ "meta.yaml" = .ok (.map .nil) ∧
    YEntries.lookup .nil "config" = none ∧
    (entrypoint scenarioWorld ⟨[("meta.yaml", "OTHER")]⟩
        "configuration/elastic_bucket.j2" "configuration/elastic_snapshot.j2"
        "meta.yaml").result = .error ⟨.keyError, "config"⟩ :=
  ⟨rfl, rfl,
    (injection_requires_mappings scenarioWorld ⟨[("meta.yaml", "OTHER")]⟩
      "configuration/elastic_bucket.j2" "configuration/elastic_snapshot.j2"
      "meta.yaml").1 .nil rfl rfl⟩

/-! ## Claim C8: missing environment variables -/

/-- Claim C8: when AWS_ACCESS_KEY_ID or AWS_SECRET_ACCESS_KEY is absent
from the environment, the injection raises a KeyError that nothing in the
program catches: the run aborts before any network call. -/
theorem missing_env_aborts (w : World) (fs0 : FS) (bt st mp : String)
    (m c : YEntries) (uY rY : Yaml)
    (hload : openAndLoad w fs0 mp = .ok (.map m))
    (hc : m.lookup "config" = some (.map c))
    (hu : c.lookup "url" = some uY) (hr : c.lookup "repository" = some rY) :
    (lookupAssoc w.env "AWS_ACCESS_KEY_ID" = none →
      (entrypoint w fs0 bt st mp).result = .error ⟨.keyError, "AWS_ACCESS_KEY_ID"⟩ ∧
      (entrypoint w fs0 bt st mp).calls = []) ∧
    (∀ (b : YEntries) (ak : String), c.lookup "bucket" = some (.map b) →
      lookupAssoc w.env "AWS_ACCESS_KEY_ID" = some ak →
      lookupAssoc w.env "AWS_SECRET_ACCESS_KEY" = none →
      (entrypoint w fs0 bt st mp).result = .error ⟨.keyError, "AWS_SECRET_ACCESS_KEY"⟩ ∧
      (entrypoint w fs0 bt st mp).calls = []) := by
  have h1 : read_configuration w fs0 mp = (.ok (.map m), []) := by
    simp [read_configuration, hload]
  have h2 : extractUrlRepo (.map m) = .ok (uY, rY) := by
    simp [extractUrlRepo, Yaml.getItem, hc, hu, hr, bind, Except.bind, pure, Except.pure]
  constructor
  · intro hnone
    have h3 : credentialInject w.env (.map m) ("snapshot-" ++ w.today)
        = .error ⟨.keyError, "AWS_ACCESS_KEY_ID"⟩ := by
      simp [credentialInject, environGet, hnone, bind, Except.bind]
    constructor <;> simp [entrypoint, h1, h2, h3]
  · intro b ak hb hak hnone
    have h3 : credentialInject w.env (.map m) ("snapshot-" ++ w.today)
        = .error ⟨.keyError, "AWS_SECRET_ACCESS_KEY"⟩ := by
      simp [credentialInject, setPath2, environGet, hak, hnone,
        Yaml.getItem, Yaml.setItem, hc, hb, bind, Except.bind]
    constructor <;> simp [entrypoint, h1, h2, h3]

/-- Witness for claim C8: scenario configuration, empty environment. -/
theorem missing_env_aborts_witness :
    openAndLoad { scenarioWorld with env := [] } scenarioFS "meta.yaml"
      = .ok (.map scenarioMeta) ∧
    lookupAssoc (World.env { scenarioWorld with env := [] }) "AWS_ACCESS_KEY_ID" = none ∧
    ((entrypoint { scenarioWorld with env := [] } scenarioFS
        "configuration/elastic_bucket.j2" "configuration/elastic_snapshot.j2"
        "meta.yaml").result = .error ⟨.keyError, "AWS_ACCESS_KEY_ID"⟩ ∧
      (entrypoint { scenarioWorld with env := [] } scenarioFS
        "configuration/elastic_bucket.j2" "configuration/elastic_snapshot.j2"
        "meta.yaml").calls = []) :=
  ⟨rfl, rfl,
    (missing_env_aborts { scenarioWorld with env := [] } scenarioFS
      "configuration/elastic_bucket.j2" "configuration/elastic_snapshot.j2"
      "meta.yaml" scenarioMeta
      (.cons "url" (.str "http://localhost:9200")
        (.cons "repository" (.str "backups")
        (.cons "bucket" (.map (.cons "snapshot" (.map .nil) .nil)) .nil)))
      (.str "http://localhost:9200") (.str "backups")
      rfl rfl rfl rfl).1 rfl⟩

/-! ## Evaluation of a full run -/

/-- Evaluation of `entrypoint` on a run in which the configuration loads
with string url and repository, both environment variables are set, both
templates render to non-empty payloads, every HTTP call completes, and
every response body parses; the repository PUT status is arbitrary.  The
run exits 0, writes both payload files, prints the snapshot name, the
url, the metadata twice, the configure status, the verify response and
the snapshot response, and issues the six network calls of the three
stages in order. -/
theorem entrypoint_run_eq (w : World) (fs0 : FS) (bt st mp : String)
    (m : YEntries) (u rep : String) (meta2 : Yaml)
    (bc sc : String) (gr r1 r2 r3 : HttpResp) (pb ps vresp cresp : Yaml)
    (hload : openAndLoad w fs0 mp = .ok (.map m))
    (hext : extractUrlRepo (.map m) = .ok (.str u, .str rep))
    (hinj : credentialInject w.env (.map m) ("snapshot-" ++ w.today) = .ok meta2)
    (hm2 : meta2.isNull = false)
    (hgtb : w.getTemplate bt = .ok ()) (hgts : w.getTemplate st = .ok ())
    (hrb : w.renderT bt meta2 = .ok bc) (hrs : w.renderT st meta2 = .ok sc)
    (hbc : bc.length ≠ 0) (hsc : sc.length ≠ 0)
    (hget : w.getResp u = .ok gr) (hgr : gr.isOk = true)
    (hyb : w.yamlLoad bc = .ok pb)
    (hput1 : w.putResp (u ++ repository_create rep) pb = .ok r1)
    (hpost : w.postResp (u ++ snapshot_verify rep) = .ok r2)
    (hjv : w.jsonLoads r2.content = .ok vresp)
    (hys : w.yamlLoad sc = .ok ps)
    (hput2 : w.putResp (u ++ snapshot_create rep ("snapshot-" ++ w.today)) ps = .ok r3)
    (hjs : w.jsonLoads r3.content = .ok cresp) :
    entrypoint w fs0 bt st mp =
      ⟨.ok (),
       (((fs0.write "configuration/bucket.json" "").write "configuration/bucket.json" bc).write
          "configuration/snapshot.json" "").write "configuration/snapshot.json" sc,
       ["snapshot-" ++ w.today, u, pyStr meta2, pyStr meta2, toString r1.status,
        pyStr vresp, pyStr cresp],
       [.getC u, .putC (u ++ repository_create rep), .getC u,
        .postC (u ++ snapshot_verify rep), .getC u,
        .putC (u ++ snapshot_create rep ("snapshot-" ++ w.today))]⟩ := by
  have h1 : read_configuration w fs0 mp = (.ok (.map m), []) := by
    simp [read_configuration, hload]
  have h4 : fill_template w fs0 bt meta2 "configuration/bucket.json"
      = (.ok (),
         (fs0.write "configuration/bucket.json" "").write "configuration/bucket.json" bc,
         [pyStr meta2]) := by
    simp [fill_template, generate_payload, hm2, hgtb, hrb, hbc]
  have h5 : fill_template w
        ((fs0.write "configuration/bucket.json" "").write "configuration/bucket.json" bc)
        st meta2 "configuration/snapshot.json"
      = (.ok (),
         (((fs0.write "configuration/bucket.json" "").write "configuration/bucket.json" bc).write
            "configuration/snapshot.json" "").write "configuration/snapshot.json" sc,
         [pyStr meta2]) := by
    simp [fill_template, generate_payload, hm2, hgts, hrs, hsc]
  have hlbp : lookupAssoc
      ((((fs0.write "configuration/bucket.json" "").write "configuration/bucket.json" bc).write
          "configuration/snapshot.json" "").write "configuration/snapshot.json" sc).entries
      "configuration/bucket.json" = some bc := by
    simp [FS.write, lookupAssoc_setAssoc]
  have hlsp : lookupAssoc
      ((((fs0.write "configuration/bucket.json" "").write "configuration/bucket.json" bc).write
          "configuration/snapshot.json" "").write "configuration/snapshot.json" sc).entries
      "configuration/snapshot.json" = some sc := by
    simp [FS.write, lookupAssoc_setAssoc]
  have h6 : configure_repository w
        ((((fs0.write "configuration/bucket.json" "").write "configuration/bucket.json" bc).write
            "configuration/snapshot.json" "").write "configuration/snapshot.json" sc)
        "configuration/bucket.json" u rep
      = (.ok r1.status, [], [.getC u, .putC (u ++ repository_create rep)]) := by
    simp [configure_repository, check_if_reachable, hget, hgr, FS.isfile, hlbp, hyb, hput1]
  have h7 : verify_bucket_configuration w u rep
      = (.ok vresp, [], [.getC u, .postC (u ++ snapshot_verify rep)]) := by
    simp [verify_bucket_configuration, check_if_reachable, hget, hgr, hpost, hjv]
  have h8 : create_snapshot w
        ((((fs0.write "configuration/bucket.json" "").write "configuration/bucket.json" bc).write
            "configuration/snapshot.json" "").write "configuration/snapshot.json" sc)
        u rep ("snapshot-" ++ w.today) "configuration/snapshot.json"
      = (.ok cresp, [], [.getC u, .putC (u ++ snapshot_create rep ("snapshot-" ++ w.today))]) := by
    simp [create_snapshot, check_if_reachable, hget, hgr, FS.isfile, hlsp, hys, hput2, hjs]
  simp [entrypoint, h1, hext, hinj, h4, h5, h6, h7, h8, pyStr]

/-! ## Claim C4: fate of a run with an absent configuration -/

/-- Claim C4 counterexample: with an absent configuration the run dies
from the TypeError raised by subscripting None at the url extraction of
line 214, not through the template-stage fatal path: the result is not
SystemExit, the fatal-path message is never printed, and the renderer is
never reached (no file is written). -/
theorem entrypoint_absent_config_typeerror :
    entrypoint unroutableWorld ⟨[]⟩ "configuration/elastic_bucket.j2"
        "configuration/elastic_snapshot.j2" "meta.yaml"
      = ⟨.error ⟨.typeError, "NoneType is not subscriptable"⟩, ⟨[]⟩,
          ["FileNotFoundError: meta.yaml"], []⟩ ∧
    ExcKind.typeError ≠ ExcKind.systemExit ∧
    "meta data didn\x27t load; please check yamls" ∉
      (entrypoint unroutableWorld ⟨[]⟩ "configuration/elastic_bucket.j2"
        "configuration/elastic_snapshot.j2" "meta.yaml").prints := by
  exact ⟨rfl, by decide, by decide⟩

/-- Claim C4 (amended): an absent configuration aborts the run with an
uncaught TypeError at the url extraction, before the template stage, with
no file written (the interpreter then exits with status 1, but not
through the exit(1) of the template stage); when the configuration loads
and every external call completes, the run exits 0 even if the repository
PUT returns an error status. -/
theorem entrypoint_exit_policy :
    (∀ (w : World) (fs0 : FS) (bt st mp : String) (pr0 : List String),
      read_configuration w fs0 mp = (.ok .null, pr0) →
      entrypoint w fs0 bt st mp
        = ⟨.error ⟨.typeError, "NoneType is not subscriptable"⟩, fs0, pr0, []⟩) ∧
    (∀ (w : World) (fs0 : FS) (bt st mp : String)
        (m : YEntries) (u rep : String) (meta2 : Yaml)
        (bc sc : String) (gr r1 r2 r3 : HttpResp) (pb ps vresp cresp : Yaml),
      openAndLoad w fs0 mp = .ok (.map m) →
      extractUrlRepo (.map m) = .ok (.str u, .str rep) →
      credentialInject w.env (.map m) ("snapshot-" ++ w.today) = .ok meta2 →
      meta2.isNull = false →
      w.getTemplate bt = .ok () → w.getTemplate st = .ok () →
      w.renderT bt meta2 = .ok bc → w.renderT st meta2 = .ok sc →
      bc.length ≠ 0 → sc.length ≠ 0 →
      w.getResp u = .ok gr → gr.isOk = true →
      w.yamlLoad bc = .ok pb →
      w.putResp (u ++ repository_create rep) pb = .ok r1 →
      w.postResp (u ++ snapshot_verify rep) = .ok r2 →
      w.jsonLoads r2.content = .ok vresp →
      w.yamlLoad sc = .ok ps →
      w.putResp (u ++ snapshot_create rep ("snapshot-" ++ w.today)) ps = .ok r3 →
      w.jsonLoads r3.content = .ok cresp →
      (entrypoint w fs0 bt st mp).result = .ok ()) := by
  constructor
  · intro w fs0 bt st mp pr0 hread
    have h2 : extractUrlRepo .null = .error ⟨.typeError, "NoneType is not subscriptable"⟩ := by
      simp [extractUrlRepo, Yaml.getItem, bind, Except.bind]
    simp [entrypoint, hread, h2]
  · intro w fs0 bt st mp m u rep meta2 bc sc gr r1 r2 r3 pb ps vresp cresp
      hload hext hinj hm2 hgtb hgts hrb hrs hbc hsc hget hgr hyb hput1 hpost hjv hys hput2 hjs
    rw [entrypoint_run_eq w fs0 bt st mp m u rep meta2 bc sc gr r1 r2 r3 pb ps vresp cresp
      hload hext hinj hm2 hgtb hgts hrb hrs hbc hsc hget hgr hyb hput1 hpost hjv hys hput2 hjs]

/-- Witness for the amended claim C4: a missing configuration file aborts
with the TypeError; the end-to-end scenario (repository PUT answering
404) exits 0. -/
theorem entrypoint_exit_policy_witness :
    (read_configuration unroutableWorld ⟨[]⟩ "meta.yaml"
        = (.ok .null, ["FileNotFoundError: meta.yaml"]) ∧
      entrypoint unroutableWorld ⟨[]⟩ "a.j2" "b.j2" "meta.yaml"
        = ⟨.error ⟨.typeError, "NoneType is not subscriptable"⟩, ⟨[]⟩,
            ["FileNotFoundError: meta.yaml"], []⟩) ∧
    (entrypoint scenarioWorld scenarioFS "configuration/elastic_bucket.j2"
        "configuration/elastic_snapshot.j2" "meta.yaml").result = .ok () :=
  ⟨⟨rfl, entrypoint_exit_policy.1 unroutableWorld ⟨[]⟩ "a.j2" "b.j2" "meta.yaml"
      ["FileNotFoundError: meta.yaml"] rfl⟩,
   entrypoint_exit_policy.2 scenarioWorld scenarioFS "configuration/elastic_bucket.j2"
      "configuration/elastic_snapshot.j2" "meta.yaml" scenarioMeta
      "http://localhost:9200" "backups"
      (.map (injectedEntries scenarioMeta
        (.cons "url" (.str "http://localhost:9200")
          (.cons "repository" (.str "backups")
          (.cons "bucket" (.map (.cons "snapshot" (.map .nil) .nil)) .nil)))
        (.cons "snapshot" (.map .nil) .nil) .nil
        "AK" "SK" ("snapshot-" ++ scenarioWorld.today)))
      "BUCKETJSON" "SNAPJSON" ⟨200, ""⟩ ⟨404, ""⟩ ⟨200, "VERIFYBODY"⟩ ⟨200, "SNAPBODY"⟩
      (.map .nil) (.map .nil)
      (.map (.cons "compensates" (.bool false) .nil))
      (.map (.cons "accepted" (.bool true) .nil))
      rfl rfl rfl rfl rfl rfl rfl rfl (by decide) (by decide)
      rfl rfl rfl rfl rfl rfl rfl rfl rfl⟩

/-! ## Claim C5: stage order and printed output of the orchestrator -/

/-- Claim C5: on a run where the configuration loads and every external
call completes, the orchestrator executes the three HTTP stages in order
(repository PUT, verify POST, snapshot PUT, each with its reachability
GET) and prints the snapshot name, the cluster url, the
repository-configuration status, the verify response and the snapshot
response in that order (interleaved only with the metadata dumps of the
renderer); the status of the repository PUT is arbitrary, so the run
proceeds to verify and create-snapshot even on a 404. -/
theorem entrypoint_stage_order (w : World) (fs0 : FS) (bt st mp : String)
    (m : YEntries) (u rep : String) (meta2 : Yaml)
    (bc sc : String) (gr r1 r2 r3 : HttpResp) (pb ps vresp cresp : Yaml)
    (hload : openAndLoad w fs0 mp = .ok (.map m))
    (hext : extractUrlRepo (.map m) = .ok (.str u, .str rep))
    (hinj : credentialInject w.env (.map m) ("snapshot-" ++ w.today) = .ok meta2)
    (hm2 : meta2.isNull = false)
    (hgtb : w.getTemplate bt = .ok ()) (hgts : w.getTemplate st = .ok ())
    (hrb : w.renderT bt meta2 = .ok bc) (hrs : w.renderT st meta2 = .ok sc)
    (hbc : bc.length ≠ 0) (hsc : sc.length ≠ 0)
    (hget : w.getResp u = .ok gr) (hgr : gr.isOk = true)
    (hyb : w.yamlLoad bc = .ok pb)
    (hput1 : w.putResp (u ++ repository_create rep) pb = .ok r1)
    (hpost : w.postResp (u ++ snapshot_verify rep) = .ok r2)
    (hjv : w.jsonLoads r2.content = .ok vresp)
    (hys : w.yamlLoad sc = .ok ps)
    (hput2 : w.putResp (u ++ snapshot_create rep ("snapshot-" ++ w.today)) ps = .ok r3)
    (hjs : w.jsonLoads r3.content = .ok cresp) :
    List.Sublist
      ["snapshot-" ++ w.today, u, toString r1.status, pyStr vresp, pyStr cresp]
      (entrypoint w fs0 bt st mp).prints ∧
    (entrypoint w fs0 bt st mp).calls
      = [.getC u, .putC (u ++ repository_create rep), .getC u,
         .postC (u ++ snapshot_verify rep), .getC u,
         .putC (u ++ snapshot_create rep ("snapshot-" ++ w.today))] := by
  rw [entrypoint_run_eq w fs0 bt st mp m u rep meta2 bc sc gr r1 r2 r3 pb ps vresp cresp
    hload hext hinj hm2 hgtb hgts hrb hrs hbc hsc hget hgr hyb hput1 hpost hjv hys hput2 hjs]
  refine ⟨?_, rfl⟩
  apply List.Sublist.cons₂
  apply List.Sublist.cons₂
  apply List.Sublist.cons
  apply List.Sublist.cons
  exact List.Sublist.refl _

/-- Witness for claim C5: the end-to-end scenario with the repository PUT
answering 404; the five values appear in order and the six calls are
issued. -/
theorem entrypoint_stage_order_witness :
    List.Sublist
      ["snapshot-2026-10-12", "http://localhost:9200", "404",
       "\x7b\x27compensates\x27: False\x7d", "\x7b\x27accepted\x27: True\x7d"]
      (entrypoint scenarioWorld scenarioFS "configuration/elastic_bucket.j2"
        "configuration/elastic_snapshot.j2" "meta.yaml").prints ∧
    (entrypoint scenarioWorld scenarioFS "configuration/elastic_bucket.j2"
        "configuration/elastic_snapshot.j2" "meta.yaml").calls
      = [.getC "http://localhost:9200",
         .putC "http://localhost:9200/_snapshot/backups",
         .getC "http://localhost:9200",
         .postC "http://localhost:9200/_snapshot/backups/_verify?pretty",
         .getC "http://localhost:9200",
         .putC "http://localhost:9200/_snapshot/backups/snapshot-2026-10-12?pretty"] :=
  entrypoint_stage_order scenarioWorld scenarioFS "configuration/elastic_bucket.j2"
    "configuration/elastic_snapshot.j2" "meta.yaml" scenarioMeta
    "http://localhost:9200" "backups"
    (.map (injectedEntries scenarioMeta
      (.cons "url" (.str "http://localhost:9200")
        (.cons "repository" (.str "backups")
        (.cons "bucket" (.map (.cons "snapshot" (.map .nil) .nil)) .nil)))
      (.cons "snapshot" (.map .nil) .nil) .nil
      "AK" "SK" ("snapshot-" ++ scenarioWorld.today)))
    "BUCKETJSON" "SNAPJSON" ⟨200, ""⟩ ⟨404, ""⟩ ⟨200, "VERIFYBODY"⟩ ⟨200, "SNAPBODY"⟩
    (.map .nil) (.map .nil)
    (.map (.cons "compensates" (.bool false) .nil))
    (.map (.cons "accepted" (.bool true) .nil))
    rfl rfl rfl rfl rfl rfl rfl rfl (by decide) (by decide)
    rfl rfl rfl rfl rfl rfl rfl rfl rfl

/-! ## Claim C7: the snapshot name -/

/-- Claim C7: on any run that reaches the name computation, the first
printed line is "snapshot-" followed by the textual form of today, and
two runs on the same calendar date print the same snapshot name. -/
theorem snapshot_name_policy
    (w1 w2 : World) (fs1 fs2 : FS) (bt1 st1 mp1 bt2 st2 mp2 : String)
    (y1 y2 : Yaml) (p1 p2 : Yaml × Yaml)
    (h1 : openAndLoad w1 fs1 mp1 = .ok y1) (hx1 : extractUrlRepo y1 = .ok p1)
    (h2 : openAndLoad w2 fs2 mp2 = .ok y2) (hx2 : extractUrlRepo y2 = .ok p2)
    (htoday : w1.today = w2.today) :
    (entrypoint w1 fs1 bt1 st1 mp1).prints.head? = some ("snapshot-" ++ w1.today) ∧
    (entrypoint w2 fs2 bt2 st2 mp2).prints.head?
      = (entrypoint w1 fs1 bt1 st1 mp1).prints.head? := by
  have key : ∀ (w : World) (fs : FS) (bt st mp : String) (y : Yaml) (p : Yaml × Yaml),
      openAndLoad w fs mp = .ok y → extractUrlRepo y = .ok p →
      (entrypoint w fs bt st mp).prints.head? = some ("snapshot-" ++ w.today) := by
    intro w fs bt st mp y p hl hx
    have hread : read_configuration w fs mp = (.ok y, []) := by
      simp [read_configuration, hl]
    obtain ⟨uY, rY⟩ := p
    unfold entrypoint
    rw [hread]
    dsimp only
    rw [hx]
    dsimp only
    rcases hcre : credentialInject w.env y ("snapshot-" ++ w.today) with e | m2
    · simp
    · dsimp only
      rcases hf1 : fill_template w fs bt m2 "configuration/bucket.json" with ⟨r1, fsa, o1⟩
      rcases r1 with e1 | u1
      · simp
      · dsimp only
        rcases hf2 : fill_template w fsa st m2 "configuration/snapshot.json" with ⟨r2, fsb, o2⟩
        rcases r2 with e2 | u2
        · simp
        · dsimp only
          rcases uY with _ | us | un | ub | ue <;> rcases rY with _ | rs | rn | rb | re <;>
            try simp
          rcases hc1 : configure_repository w fsb "configuration/bucket.json" us rs
            with ⟨s1, p1s, c1s⟩
          rcases s1 with e3 | st1
          · simp
          · dsimp only
            rcases hv : verify_bucket_configuration w us rs with ⟨s2, p2s, c2s⟩
            rcases s2 with e4 | vr
            · simp
            · dsimp only
              rcases hcs : create_snapshot w fsb us rs ("snapshot-" ++ w.today)
                  "configuration/snapshot.json" with ⟨s3, p3s, c3s⟩
              rcases s3 with e5 | cr <;> simp
  have k1 := key w1 fs1 bt1 st1 mp1 y1 p1 h1 hx1
  have k2 := key w2 fs2 bt2 st2 mp2 y2 p2 h2 hx2
  exact ⟨k1, by rw [k1, k2, htoday]⟩

/-- Witness for claim C7: two different worlds sharing the calendar date
2026-10-12 print the same first line. -/
theorem snapshot_name_policy_witness :
    (entrypoint scenarioWorld scenarioFS "a.j2" "b.j2" "meta.yaml").prints.head?
      = some "snapshot-2026-10-12" ∧
    (entrypoint altWorld scenarioFS "c.j2" "d.j2" "meta.yaml").prints.head?
      = (entrypoint scenarioWorld scenarioFS "a.j2" "b.j2" "meta.yaml").prints.head? :=
  snapshot_name_policy scenarioWorld altWorld scenarioFS scenarioFS
    "a.j2" "b.j2" "meta.yaml" "c.j2" "d.j2" "meta.yaml"
    (.map scenarioMeta) (.map scenarioMeta)
    (.str "http://localhost:9200", .str "backups")
    (.str "http://localhost:9200", .str "backups")
    rfl rfl rfl rfl rfl

end ElasticSnapshot
